import Mathlib

/-!
Verification of go-generate-password, package `generator`.

A shallow embedding of `generator/generator.go`.

Modelling conventions.

* A Go `string` is a Lean `String`, read as its sequence of runes (the text is
  well-formed UTF-8, so a rune is a `Char`).  `strings.Split(s, "")` yields one
  one-rune string per rune of `s`.
* A Go `int` is an `Int`; the only arithmetic on it is the loop counter
  `i++` bounded by `i < Length`, which cannot overflow.
* A function returning `(T, error)` returns both components, as in Go; a nil
  pointer or a nil error is `none`, a nil slice is `[]`.
* `New` writes through the `*Config` it is given.  The model returns the final
  contents of that `Config` object next to the Go results.
* `crypto/rand.Int(rand.Reader, max)` is an external call.  It is modelled by a
  table `draw max k`: the outcome of the `k`-th call made on the reader when
  that call is made with bound `max`.  `rand.Int` panics when `max <= 0`.
  Indexing a slice out of range panics as well.
-/

namespace Passgen

/-! ## Constants -/

/-- Constant `LengthWeak`. -/
def LengthWeak : Int := 6

/-- Constant `LengthOK`. -/
def LengthOK : Int := 12

/-- Constant `LengthStrong`. -/
def LengthStrong : Int := 24

/-- Constant `LengthVeryStrong`. -/
def LengthVeryStrong : Int := 36

/-- Constant `DefaultLetterSet`. -/
def DefaultLetterSet : String := "abcdefghijklmnopqrstuvwxyz"

/-- Constant `DefaultLetterAmbiguousSet`. -/
def DefaultLetterAmbiguousSet : String := "ijlo"

/-- Constant `DefaultNumberSet`. -/
def DefaultNumberSet : String := "0123456789"

/-- Constant `DefaultNumberAmbiguousSet`. -/
def DefaultNumberAmbiguousSet : String := "01"

/-- Constant `DefaultSymbolSet`; in Go source text
`"!$%^&*()_+{}:@[];'#<>?,./|\\-=?"` (30 runes, the two-character escape being
one backslash). -/
def DefaultSymbolSet : String := "!$%^&*()_+\x7b\x7d:@[];\x27#<>?,./|\x5c-=?"

/-- Constant `DefaultSymbolAmbiguousSet`; in Go source text
`"<>[](){}:;'/|\\,"` (15 runes). -/
def DefaultSymbolAmbiguousSet : String := "<>[]()\x7b\x7d:;\x27/|\x5c,"

/-! ## Data model -/

/-- Go `error` values that the package can return: its own `ErrConfigIsEmpty`
and whatever error the random reader reports (identified by a code). -/
inductive Error where
  | ErrConfigIsEmpty
  | readerError (code : Nat)
deriving DecidableEq, Repr

/-- Struct `Config`. -/
structure Config where
  Length : Int
  CharacterSet : String
  IncludeSymbols : Bool
  IncludeNumbers : Bool
  IncludeLowercaseLetters : Bool
  IncludeUppercaseLetters : Bool
  ExcludeSimilarCharacters : Bool
  ExcludeAmbiguousCharacters : Bool
deriving DecidableEq, Repr

/-- Initial value of the package variable `DefaultConfig` (the fields the
composite literal leaves out are zero values). -/
def DefaultConfig : Config :=
  { Length := LengthStrong
    CharacterSet := ""
    IncludeSymbols := true
    IncludeNumbers := true
    IncludeLowercaseLetters := true
    IncludeUppercaseLetters := true
    ExcludeSimilarCharacters := true
    ExcludeAmbiguousCharacters := true }

/-- Struct `Generator`: it embeds a `*Config`; `config` is the contents of the
pointed-to object. -/
structure Generator where
  config : Config
deriving DecidableEq, Repr

/-! ## Library functions used by the package -/

/-- Go `strings.Map(mapping, s)`: apply `mapping` to every rune of `s`, dropping
the runes mapped to a negative value (`none`). -/
def stringsMap (mapping : Char → Option Char) (s : String) : String :=
  ⟨s.data.filterMap mapping⟩

/-- Go `strings.ContainsRune(s, r)`. -/
def stringsContainsRune (s : String) (r : Char) : Bool :=
  s.data.contains r

/-- Go `strings.ToUpper(s)`, which the package applies to ASCII constants only;
on ASCII text it upper-cases `a`..`z` and keeps every other rune. -/
def stringsToUpper (s : String) : String :=
  ⟨s.data.map Char.toUpper⟩

/-- Go `strings.Split(s, "")`: explode `s` into its runes, one string each. -/
def stringsSplitRunes (s : String) : List String :=
  s.data.map String.singleton

/-! ## Character-set resolution -/

/-- Function `removeCharacters(str, characters)`. -/
def removeCharacters (str characters : String) : String :=
  stringsMap (fun r => if !stringsContainsRune characters r then some r else none) str

/-- Function `buildCharacterSet(config)`.  Each removal is applied to the whole
string accumulated so far. -/
def buildCharacterSet (config : Config) : String :=
  let characterSet : String := ""
  let characterSet :=
    if config.IncludeLowercaseLetters then
      let characterSet := characterSet ++ DefaultLetterSet
      if config.ExcludeSimilarCharacters then
        removeCharacters characterSet DefaultLetterAmbiguousSet
      else characterSet
    else characterSet
  let characterSet :=
    if config.IncludeUppercaseLetters then
      let characterSet := characterSet ++ stringsToUpper DefaultLetterSet
      if config.ExcludeSimilarCharacters then
        removeCharacters characterSet (stringsToUpper DefaultLetterAmbiguousSet)
      else characterSet
    else characterSet
  let characterSet :=
    if config.IncludeNumbers then
      let characterSet := characterSet ++ DefaultNumberSet
      if config.ExcludeSimilarCharacters then
        removeCharacters characterSet DefaultNumberAmbiguousSet
      else characterSet
    else characterSet
  let characterSet :=
    if config.IncludeSymbols then
      let characterSet := characterSet ++ DefaultSymbolSet
      if config.ExcludeAmbiguousCharacters then
        removeCharacters characterSet DefaultSymbolAmbiguousSet
      else characterSet
    else characterSet
  characterSet

/-- What a call of `New` leaves behind: the two Go results and the final
contents of the `Config` object the call worked on (the caller's object, or
the package variable `DefaultConfig` when the argument is nil). -/
structure NewResult where
  generator : Option Generator
  err : Option Error
  config : Config
deriving DecidableEq, Repr

/-- Function `New(config)`.  `config = none` is the nil pointer, for which the
current contents `defaultConfig` of the package variable are used. -/
def New (config : Option Config) (defaultConfig : Config) : NewResult :=
  let config : Config :=
    match config with
    | none => defaultConfig
    | some c => c
  if !config.IncludeSymbols &&
      !config.IncludeUppercaseLetters &&
      !config.IncludeLowercaseLetters &&
      !config.IncludeNumbers &&
      config.CharacterSet == "" then
    { generator := none, err := some Error.ErrConfigIsEmpty, config := config }
  else
    let config : Config :=
      if config.Length == 0 then { config with Length := LengthStrong } else config
    let config : Config :=
      if config.CharacterSet == "" then
        { config with CharacterSet := buildCharacterSet config }
      else config
    { generator := some { config := config }, err := none, config := config }

/-- Function `NewWithDefault()`: `New(&DefaultConfig)`. -/
def NewWithDefault (defaultConfig : Config) : NewResult :=
  New (some defaultConfig) defaultConfig

/-! ## Password generation -/

/-- Table of the random reader: `draw max k` is what the `k`-th call of
`rand.Int` on the reader yields when it is made with bound `max`: a value or an
error. -/
abbrev RandReader := Nat → Nat → Except Error Nat

/-- How a call ends: it returns its Go result pair, or it panics. -/
inductive Outcome (α : Type) where
  | returned (val : α) (err : Option Error)
  | panicked
deriving DecidableEq, Repr

/-- Call number `pos` of `rand.Int(rand.Reader, max)`: panics when `max <= 0`,
otherwise hands back what the reader yields. -/
def randInt (draw : RandReader) (max : Nat) (pos : Nat) : Outcome (Option Nat) :=
  if max = 0 then Outcome.panicked
  else
    match draw max pos with
    | Except.ok val => Outcome.returned (some val) none
    | Except.error e => Outcome.returned none (some e)

/-- The loop shared by `Generate` and `GenerateWithLength`:
`for i := 0; i < length; i++ { val, err := rand.Int(rand.Reader, max); ... }`,
with `remaining` iterations left, `generated` built so far and `pos` calls of
`rand.Int` already made.  The second component is the number of calls of
`rand.Int` made when the function ends.  A failed call returns `nil` and the
error; a call that came back with neither a value nor an error would make
`val.Int64()` dereference nil. -/
def generateLoop (characterSet : List String) (max : Nat) (draw : RandReader) :
    Nat → String → Nat → Outcome (Option String) × Nat
  | 0, generated, pos => (Outcome.returned (some generated) none, pos)
  | remaining + 1, generated, pos =>
    match randInt draw max pos with
    | Outcome.panicked => (Outcome.panicked, pos)
    | Outcome.returned _ (some e) => (Outcome.returned none (some e), pos + 1)
    | Outcome.returned none none => (Outcome.panicked, pos + 1)
    | Outcome.returned (some val) none =>
      match characterSet[val]? with
      | none => (Outcome.panicked, pos + 1)
      | some ch => generateLoop characterSet max draw remaining (generated ++ ch) (pos + 1)

/-- Function `Generator.GenerateWithLength(length)`, started when `pos` calls of
`rand.Int` have been made.  The loop `for i := 0; i < length; i++` runs
`length.toNat` times. -/
def GenerateWithLength (g : Generator) (length : Int) (draw : RandReader) (pos : Nat) :
    Outcome (Option String) × Nat :=
  let characterSet := stringsSplitRunes g.config.CharacterSet
  let max := characterSet.length
  generateLoop characterSet max draw length.toNat "" pos

/-- Function `Generator.Generate()`, started when `pos` calls of `rand.Int`
have been made; its loop is bounded by `g.Config.Length`. -/
def Generate (g : Generator) (draw : RandReader) (pos : Nat) :
    Outcome (Option String) × Nat :=
  let characterSet := stringsSplitRunes g.config.CharacterSet
  let max := characterSet.length
  generateLoop characterSet max draw g.config.Length.toNat "" pos

/-- The loop shared by `GenerateMany` and `GenerateManyWithLength`, `one` being
the call made in its body (`g.Generate()` or `g.GenerateWithLength(length)`).
On an error the loop returns `nil` and the error; `*str` on a nil pointer
panics. -/
def generateManyLoop (one : Nat → Outcome (Option String) × Nat) :
    Nat → List String → Nat → Outcome (List String) × Nat
  | 0, generated, pos => (Outcome.returned generated none, pos)
  | remaining + 1, generated, pos =>
    match one pos with
    | (Outcome.panicked, pos1) => (Outcome.panicked, pos1)
    | (Outcome.returned _ (some e), pos1) => (Outcome.returned [] (some e), pos1)
    | (Outcome.returned none none, pos1) => (Outcome.panicked, pos1)
    | (Outcome.returned (some str) none, pos1) =>
      generateManyLoop one remaining (generated ++ [str]) pos1

/-- Function `Generator.GenerateMany(amount)`. -/
def GenerateMany (g : Generator) (amount : Int) (draw : RandReader) (pos : Nat) :
    Outcome (List String) × Nat :=
  generateManyLoop (fun p => Generate g draw p) amount.toNat [] pos

/-- Function `Generator.GenerateManyWithLength(amount, length)`. -/
def GenerateManyWithLength (g : Generator) (amount length : Int) (draw : RandReader)
    (pos : Nat) : Outcome (List String) × Nat :=
  generateManyLoop (fun p => GenerateWithLength g length draw p) amount.toNat [] pos

/-! ## Reference definitions -/

/-- Delete from `s` every occurrence of a rune listed in `unwanted`; the other
runes keep their order. -/
def deleteRunes (unwanted : List Char) (s : String) : String :=
  ⟨s.data.filter (fun r => decide (r ∉ unwanted))⟩

/-- Per-subset reference for character-set resolution, following the
specification: each included base subset is filtered on its own (letters and
numbers by their similar set when similar characters are excluded, symbols by
the ambiguous set when ambiguous characters are excluded) and the filtered
subsets are concatenated in the order lowercase, uppercase, numbers, symbols. -/
def buildCharacterSetPerSubset (config : Config) : String :=
  let lowercase : String :=
    if config.IncludeLowercaseLetters then
      if config.ExcludeSimilarCharacters then
        deleteRunes DefaultLetterAmbiguousSet.data DefaultLetterSet
      else DefaultLetterSet
    else ""
  let uppercase : String :=
    if config.IncludeUppercaseLetters then
      if config.ExcludeSimilarCharacters then
        deleteRunes (stringsToUpper DefaultLetterAmbiguousSet).data (stringsToUpper DefaultLetterSet)
      else stringsToUpper DefaultLetterSet
    else ""
  let numbers : String :=
    if config.IncludeNumbers then
      if config.ExcludeSimilarCharacters then
        deleteRunes DefaultNumberAmbiguousSet.data DefaultNumberSet
      else DefaultNumberSet
    else ""
  let symbols : String :=
    if config.IncludeSymbols then
      if config.ExcludeAmbiguousCharacters then
        deleteRunes DefaultSymbolAmbiguousSet.data DefaultSymbolSet
      else DefaultSymbolSet
    else ""
  lowercase ++ uppercase ++ numbers ++ symbols

/-- The configuration names no character source: the four include toggles are
false and no explicit character set is given. -/
def Config.IsEmpty (c : Config) : Prop :=
  c.IncludeSymbols = false ∧ c.IncludeNumbers = false ∧
    c.IncludeLowercaseLetters = false ∧ c.IncludeUppercaseLetters = false ∧
    c.CharacterSet = ""

instance (c : Config) : Decidable c.IsEmpty := by
  unfold Config.IsEmpty; infer_instance

/-- The random reader never fails: for every positive bound every call of
`rand.Int` yields a value, which lies below the bound as `rand.Int` promises. -/
def NeverFails (draw : RandReader) : Prop :=
  ∀ max k, 0 < max → ∃ val, draw max k = Except.ok val ∧ val < max

/-- The values the reader hands out for bound `max` lie in `[0, max)`, as
`rand.Int` promises; calls may still fail with an error. -/
def DrawsInRange (draw : RandReader) (max : Nat) : Prop :=
  ∀ k val, draw max k = Except.ok val → val < max

/-- A reader for worked examples: call `k` yields `k % max` while `k < fails` and
fails with error code `k` from then on. -/
def sampleReader (fails : Nat) : RandReader :=
  fun max k => if k < fails then Except.ok (k % max) else Except.error (Error.readerError k)

/-! ## Construction -/

/-- `New` on a configuration that names no character source. -/
theorem New_of_isEmpty (c d : Config) (h : c.IsEmpty) :
    New (some c) d = { generator := none, err := some Error.ErrConfigIsEmpty, config := c } := by
  obtain ⟨h1, h2, h3, h4, h5⟩ := h
  simp [New, h1, h2, h3, h4, h5]

/-- The guard of `New` is the test for an empty configuration. -/
theorem New_guard_eq (c : Config) :
    (!c.IncludeSymbols && !c.IncludeUppercaseLetters && !c.IncludeLowercaseLetters &&
      !c.IncludeNumbers && c.CharacterSet == "") = decide c.IsEmpty := by
  obtain ⟨len, cs, s, n, l, u, es, ea⟩ := c
  by_cases hcs : cs = "" <;>
    cases s <;> cases n <;> cases l <;> cases u <;> simp [Config.IsEmpty, hcs]

/-- `buildCharacterSet` reads the six toggles only. -/
theorem buildCharacterSet_congr (c c1 : Config)
    (hs : c.IncludeSymbols = c1.IncludeSymbols)
    (hn : c.IncludeNumbers = c1.IncludeNumbers)
    (hl : c.IncludeLowercaseLetters = c1.IncludeLowercaseLetters)
    (hu : c.IncludeUppercaseLetters = c1.IncludeUppercaseLetters)
    (hes : c.ExcludeSimilarCharacters = c1.ExcludeSimilarCharacters)
    (hea : c.ExcludeAmbiguousCharacters = c1.ExcludeAmbiguousCharacters) :
    buildCharacterSet c = buildCharacterSet c1 := by
  unfold buildCharacterSet
  rw [hs, hn, hl, hu, hes, hea]

/-- `New` on a configuration that names a character source: the generator
holds the configuration with a zero length replaced by `LengthStrong` and an
empty character set replaced by the built one. -/
theorem New_of_not_isEmpty (c d : Config) (h : ¬ c.IsEmpty) :
    ∃ g : Generator,
      New (some c) d = { generator := some g, err := none, config := g.config } ∧
      g.config.Length = (if c.Length = 0 then LengthStrong else c.Length) ∧
      g.config.CharacterSet =
        (if c.CharacterSet = "" then buildCharacterSet c else c.CharacterSet) := by
  have hg := New_guard_eq c
  rw [decide_eq_false h] at hg
  simp only [New, hg]
  refine ⟨_, rfl, ?_, ?_⟩
  · by_cases hlen : c.Length = 0 <;> by_cases hcs : c.CharacterSet = "" <;>
      simp [hlen, hcs]
  · by_cases hlen : c.Length = 0 <;> by_cases hcs : c.CharacterSet = "" <;>
      simp [hlen, hcs]
    all_goals exact buildCharacterSet_congr _ _ rfl rfl rfl rfl rfl rfl

/-- `New(nil)` is `New` on the package variable. -/
theorem New_nil (d : Config) : New none d = New (some d) d := rfl

/-- `New` reports no error exactly on the configurations that name a character
source. -/
theorem New_err_eq_none_iff (c d : Config) : (New (some c) d).err = none ↔ ¬ c.IsEmpty := by
  by_cases h : c.IsEmpty
  · simp [New_of_isEmpty c d h, h]
  · obtain ⟨g, hg, -⟩ := New_of_not_isEmpty c d h
    simp [hg, h]

/-- What the generator returned by `New` holds. -/
theorem New_generator_eq_some (c d : Config) (g : Generator)
    (h : (New (some c) d).generator = some g) :
    ¬ c.IsEmpty ∧ (New (some c) d).err = none ∧
      g.config.Length = (if c.Length = 0 then LengthStrong else c.Length) ∧
      g.config.CharacterSet =
        (if c.CharacterSet = "" then buildCharacterSet c else c.CharacterSet) := by
  by_cases he : c.IsEmpty
  · rw [New_of_isEmpty c d he] at h
    simp at h
  · obtain ⟨g1, hg1, hlen, hcs⟩ := New_of_not_isEmpty c d he
    rw [hg1] at h
    have hgg : g1 = g := by simpa using h
    subst hgg
    exact ⟨he, by rw [hg1], hlen, hcs⟩

/-- Every toggle combination with an include toggle set builds a non-empty
character set. -/
theorem buildCharacterSet_toggles_ne_empty :
    ∀ s n l u es ea : Bool, (s || n || l || u) = true →
      buildCharacterSet ⟨0, "", s, n, l, u, es, ea⟩ ≠ "" := by
  decide

/-- A configuration without explicit character set that names a character
source builds a non-empty character set. -/
theorem buildCharacterSet_ne_empty (c : Config) (hcs : c.CharacterSet = "")
    (h : ¬ c.IsEmpty) : buildCharacterSet c ≠ "" := by
  rw [buildCharacterSet_congr c
    ⟨0, "", c.IncludeSymbols, c.IncludeNumbers, c.IncludeLowercaseLetters,
      c.IncludeUppercaseLetters, c.ExcludeSimilarCharacters, c.ExcludeAmbiguousCharacters⟩
    rfl rfl rfl rfl rfl rfl]
  apply buildCharacterSet_toggles_ne_empty
  obtain ⟨len, cs, s, n, l, u, es, ea⟩ := c
  simp only [Config.IsEmpty] at h hcs
  cases s <;> cases n <;> cases l <;> cases u <;> simp_all

/-- The generator returned by `New` holds a non-empty character set. -/
theorem New_characterSet_ne_empty (c d : Config) (g : Generator)
    (h : (New (some c) d).generator = some g) : g.config.CharacterSet ≠ "" := by
  obtain ⟨he, -, -, hcs⟩ := New_generator_eq_some c d g h
  rw [hcs]
  by_cases hc : c.CharacterSet = ""
  · rw [if_pos hc]
    exact buildCharacterSet_ne_empty c hc he
  · rw [if_neg hc]
    exact hc

/-- A string other than `""` has at least one rune. -/
theorem length_pos_of_ne_empty (s : String) (h : s ≠ "") : 0 < s.length := by
  obtain ⟨l⟩ := s
  cases l with
  | nil => exact absurd rfl h
  | cons a t => simp [String.length]

/-- Excluding similar characters deletes the ten similar runes from what is
built without that exclusion, for every toggle combination. -/
theorem buildCharacterSet_toggles_excludeSimilar :
    ∀ s n l u ea : Bool,
      buildCharacterSet ⟨0, "", s, n, l, u, true, ea⟩ =
        deleteRunes ['i', 'j', 'l', 'o', 'I', 'J', 'L', 'O', '0', '1']
          (buildCharacterSet ⟨0, "", s, n, l, u, false, ea⟩) := by
  decide

/-- Excluding ambiguous characters deletes the runes of
`DefaultSymbolAmbiguousSet` from what is built without that exclusion, for every
toggle combination. -/
theorem buildCharacterSet_toggles_excludeAmbiguous :
    ∀ s n l u es : Bool,
      buildCharacterSet ⟨0, "", s, n, l, u, es, true⟩ =
        deleteRunes DefaultSymbolAmbiguousSet.data
          (buildCharacterSet ⟨0, "", s, n, l, u, es, false⟩) := by
  decide

/-- Without symbols the ambiguous-characters toggle changes nothing. -/
theorem buildCharacterSet_toggles_noSymbols :
    ∀ n l u es : Bool,
      buildCharacterSet ⟨0, "", false, n, l, u, es, true⟩ =
        buildCharacterSet ⟨0, "", false, n, l, u, es, false⟩ := by
  decide

/-- The generator `New` returns for a configuration without explicit character
set that names a character source. -/
theorem New_of_built (c d : Config) (hcs : c.CharacterSet = "") (h : ¬ c.IsEmpty) :
    ∃ g, (New (some c) d).generator = some g ∧
      g.config.CharacterSet = buildCharacterSet c := by
  obtain ⟨g, hg, -, hset⟩ := New_of_not_isEmpty c d h
  refine ⟨g, by rw [hg], ?_⟩
  rw [hset, if_pos hcs]

/-! ## Claims on construction and character-set resolution -/

/-- C1: for a non-nil `Config`, `New` returns `ErrConfigIsEmpty` and no generator
if and only if the four include toggles are false and `CharacterSet` is empty; in
every other case it returns a generator and no error.  Neither the exclude
toggles nor `Length` enter the condition. -/
theorem New_errConfigIsEmpty_iff (c d : Config) :
    (((New (some c) d).err = some Error.ErrConfigIsEmpty ∧ (New (some c) d).generator = none) ↔
        (c.IncludeSymbols = false ∧ c.IncludeNumbers = false ∧
          c.IncludeLowercaseLetters = false ∧ c.IncludeUppercaseLetters = false ∧
          c.CharacterSet = "")) ∧
    (((∃ g, (New (some c) d).generator = some g) ∧ (New (some c) d).err = none) ↔
        ¬ (c.IncludeSymbols = false ∧ c.IncludeNumbers = false ∧
          c.IncludeLowercaseLetters = false ∧ c.IncludeUppercaseLetters = false ∧
          c.CharacterSet = "")) := by
  change (_ ↔ c.IsEmpty) ∧ (_ ↔ ¬ c.IsEmpty)
  by_cases h : c.IsEmpty
  · simp [New_of_isEmpty c d h, h]
  · obtain ⟨g, hg, -⟩ := New_of_not_isEmpty c d h
    simp [hg, h]

/-- C5: a non-empty explicit `CharacterSet` is accepted by `New` and kept
unchanged in the generator, for all values of the six toggles. -/
theorem New_keeps_explicit_characterSet (c d : Config) (h : c.CharacterSet ≠ "") :
    ∃ g, (New (some c) d).generator = some g ∧ (New (some c) d).err = none ∧
      g.config.CharacterSet = c.CharacterSet := by
  have he : ¬ c.IsEmpty := fun hc => h hc.2.2.2.2
  obtain ⟨g, hg, -, hcs⟩ := New_of_not_isEmpty c d he
  refine ⟨g, by rw [hg], by rw [hg], ?_⟩
  rw [hcs, if_neg h]

/-- Witness for C5: an explicit set made of similar and ambiguous characters,
with every toggle set, is kept as it is. -/
theorem New_keeps_explicit_characterSet_witness :
    ∃ g, (New (some ⟨8, "il1O0<>", true, true, true, true, true, true⟩) DefaultConfig).generator
          = some g ∧
      (New (some ⟨8, "il1O0<>", true, true, true, true, true, true⟩) DefaultConfig).err = none ∧
      g.config.CharacterSet = "il1O0<>" :=
  New_keeps_explicit_characterSet ⟨8, "il1O0<>", true, true, true, true, true, true⟩
    DefaultConfig (by decide)

/-- C6: with both exclude toggles false, `buildCharacterSet` is the concatenation,
in the order lowercase, uppercase, numbers, symbols, of the base subsets whose
include toggle is true; the base subsets are `a`..`z`, `A`..`Z`, the ten digits
and `DefaultSymbolSet`; and `New` resolves the configuration with `Length: 8` and
`IncludeLowercaseLetters: true` (nothing else set) to the 26 lowercase letters. -/
theorem buildCharacterSet_without_exclusions (c d : Config)
    (hes : c.ExcludeSimilarCharacters = false) (hea : c.ExcludeAmbiguousCharacters = false) :
    buildCharacterSet c =
        (if c.IncludeLowercaseLetters then DefaultLetterSet else "") ++
        (if c.IncludeUppercaseLetters then stringsToUpper DefaultLetterSet else "") ++
        (if c.IncludeNumbers then DefaultNumberSet else "") ++
        (if c.IncludeSymbols then DefaultSymbolSet else "") ∧
      DefaultLetterSet = "abcdefghijklmnopqrstuvwxyz" ∧
      stringsToUpper DefaultLetterSet = "ABCDEFGHIJKLMNOPQRSTUVWXYZ" ∧
      DefaultNumberSet = "0123456789" ∧
      (New (some ⟨8, "", false, false, true, false, false, false⟩) d).generator =
        some ⟨⟨8, "abcdefghijklmnopqrstuvwxyz", false, false, true, false, false, false⟩⟩ := by
  refine ⟨?_, rfl, by decide, rfl, rfl⟩
  obtain ⟨len, cs, s, n, l, u, es, ea⟩ := c
  simp only at hes hea
  subst hes hea
  cases s <;> cases n <;> cases l <;> cases u <;> rfl

/-- Witness for C6: letters and numbers included, nothing excluded. -/
theorem buildCharacterSet_without_exclusions_witness :
    buildCharacterSet ⟨8, "", false, true, true, true, false, false⟩ =
      "abcdefghijklmnopqrstuvwxyzABCDEFGHIJKLMNOPQRSTUVWXYZ0123456789" :=
  (buildCharacterSet_without_exclusions ⟨8, "", false, true, true, true, false, false⟩
    DefaultConfig rfl rfl).1.trans (by decide)

/-- C7: for every combination of the six toggles, `buildCharacterSet`, which
applies each removal to the whole accumulated string, returns the same string as
the per-subset reference `buildCharacterSetPerSubset`. -/
theorem buildCharacterSet_eq_perSubset (c : Config) :
    buildCharacterSet c = buildCharacterSetPerSubset c := by
  obtain ⟨len, cs, s, n, l, u, es, ea⟩ := c
  cases s <;> cases n <;> cases l <;> cases u <;> cases es <;> cases ea <;> rfl

/-- C8: for a configuration with empty `CharacterSet` that `New` accepts, the
set resolved with `ExcludeSimilarCharacters = true` is the set resolved with
`ExcludeSimilarCharacters = false` (other toggles equal) with every occurrence of
`i j l o I J L O 0 1` deleted and the other runes kept in order; with only
`IncludeLowercaseLetters` and `ExcludeSimilarCharacters` set the resolved set is
`abcdefghkmnpqrstuvwxyz`. -/
theorem New_excludeSimilar (c d : Config) (hcs : c.CharacterSet = "")
    (hacc : (New (some c) d).err = none) :
    (∃ gT gF,
      (New (some { c with ExcludeSimilarCharacters := true }) d).generator = some gT ∧
      (New (some { c with ExcludeSimilarCharacters := false }) d).generator = some gF ∧
      gT.config.CharacterSet =
        deleteRunes ['i', 'j', 'l', 'o', 'I', 'J', 'L', 'O', '0', '1']
          gF.config.CharacterSet) ∧
    (∀ len : Int, ∃ g,
      (New (some ⟨len, "", false, false, true, false, true, false⟩) d).generator = some g ∧
      g.config.CharacterSet = "abcdefghkmnpqrstuvwxyz") := by
  have he : ¬ c.IsEmpty := (New_err_eq_none_iff c d).1 hacc
  constructor
  · obtain ⟨gT, hT, hsT⟩ :=
      New_of_built { c with ExcludeSimilarCharacters := true } d hcs he
    obtain ⟨gF, hF, hsF⟩ :=
      New_of_built { c with ExcludeSimilarCharacters := false } d hcs he
    refine ⟨gT, gF, hT, hF, ?_⟩
    rw [hsT, hsF]
    exact buildCharacterSet_toggles_excludeSimilar c.IncludeSymbols c.IncludeNumbers
      c.IncludeLowercaseLetters c.IncludeUppercaseLetters c.ExcludeAmbiguousCharacters
  · intro len
    obtain ⟨g, hg, hs⟩ :=
      New_of_built ⟨len, "", false, false, true, false, true, false⟩ d rfl
        (by simp [Config.IsEmpty])
    exact ⟨g, hg, hs.trans rfl⟩

/-- Witness for C8: the default toggles (everything included). -/
theorem New_excludeSimilar_witness :
    (∃ gT gF,
      (New (some { DefaultConfig with ExcludeSimilarCharacters := true }) DefaultConfig).generator
        = some gT ∧
      (New (some { DefaultConfig with ExcludeSimilarCharacters := false }) DefaultConfig).generator
        = some gF ∧
      gT.config.CharacterSet =
        deleteRunes ['i', 'j', 'l', 'o', 'I', 'J', 'L', 'O', '0', '1']
          gF.config.CharacterSet) ∧
    (∀ len : Int, ∃ g,
      (New (some ⟨len, "", false, false, true, false, true, false⟩) DefaultConfig).generator
        = some g ∧
      g.config.CharacterSet = "abcdefghkmnpqrstuvwxyz") :=
  New_excludeSimilar DefaultConfig DefaultConfig rfl rfl

/-- C9: for a configuration with empty `CharacterSet` that `New` accepts, the
set resolved with `ExcludeAmbiguousCharacters = true` is the set resolved with
`ExcludeAmbiguousCharacters = false` (other toggles equal) with every occurrence
of a rune of `DefaultSymbolAmbiguousSet` deleted and nothing else changed; when
`IncludeSymbols` is false the two resolved sets are identical. -/
theorem New_excludeAmbiguous (c d : Config) (hcs : c.CharacterSet = "")
    (hacc : (New (some c) d).err = none) :
    ∃ gT gF,
      (New (some { c with ExcludeAmbiguousCharacters := true }) d).generator = some gT ∧
      (New (some { c with ExcludeAmbiguousCharacters := false }) d).generator = some gF ∧
      gT.config.CharacterSet =
        deleteRunes DefaultSymbolAmbiguousSet.data gF.config.CharacterSet ∧
      (c.IncludeSymbols = false → gT.config.CharacterSet = gF.config.CharacterSet) := by
  have he : ¬ c.IsEmpty := (New_err_eq_none_iff c d).1 hacc
  obtain ⟨gT, hT, hsT⟩ :=
    New_of_built { c with ExcludeAmbiguousCharacters := true } d hcs he
  obtain ⟨gF, hF, hsF⟩ :=
    New_of_built { c with ExcludeAmbiguousCharacters := false } d hcs he
  refine ⟨gT, gF, hT, hF, ?_, ?_⟩
  · rw [hsT, hsF]
    exact buildCharacterSet_toggles_excludeAmbiguous c.IncludeSymbols c.IncludeNumbers
      c.IncludeLowercaseLetters c.IncludeUppercaseLetters c.ExcludeSimilarCharacters
  · intro hsym
    rw [hsT, hsF]
    obtain ⟨len, cs, s, n, l, u, es, ea⟩ := c
    simp only at hsym
    subst hsym
    exact buildCharacterSet_toggles_noSymbols n l u es

/-- Witness for C9: lowercase letters only, where the toggle has no effect. -/
theorem New_excludeAmbiguous_witness :
    ∃ gT gF,
      (New (some ⟨8, "", false, false, true, false, false, true⟩) DefaultConfig).generator
        = some gT ∧
      (New (some ⟨8, "", false, false, true, false, false, false⟩) DefaultConfig).generator
        = some gF ∧
      gT.config.CharacterSet =
        deleteRunes DefaultSymbolAmbiguousSet.data gF.config.CharacterSet ∧
      ((false : Bool) = false → gT.config.CharacterSet = gF.config.CharacterSet) :=
  New_excludeAmbiguous ⟨8, "", false, false, true, false, false, false⟩ DefaultConfig rfl rfl

/-- C10: whenever `New` returns a generator (for a given `Config` or for nil),
that generator holds a non-empty `CharacterSet`; each base subset keeps at least
one rune after the similar and ambiguous removals. -/
theorem New_characterSet_nonempty (cfg : Option Config) (d : Config) (g : Generator)
    (h : (New cfg d).generator = some g) :
    g.config.CharacterSet ≠ "" ∧ 0 < g.config.CharacterSet.length ∧
      removeCharacters DefaultLetterSet DefaultLetterAmbiguousSet ≠ "" ∧
      removeCharacters (stringsToUpper DefaultLetterSet)
        (stringsToUpper DefaultLetterAmbiguousSet) ≠ "" ∧
      removeCharacters DefaultNumberSet DefaultNumberAmbiguousSet ≠ "" ∧
      removeCharacters DefaultSymbolSet DefaultSymbolAmbiguousSet ≠ "" := by
  have hne : g.config.CharacterSet ≠ "" := by
    cases cfg with
    | none => exact New_characterSet_ne_empty d d g (by rw [← New_nil]; exact h)
    | some c => exact New_characterSet_ne_empty c d g h
  exact ⟨hne, length_pos_of_ne_empty _ hne, by decide, by decide, by decide, by decide⟩

/-- Witness for C10: numbers only, with similar characters excluded. -/
theorem New_characterSet_nonempty_witness :
    ("23456789" : String) ≠ "" ∧ 0 < ("23456789" : String).length :=
  ⟨(New_characterSet_nonempty (some ⟨0, "", false, true, false, false, true, true⟩)
      DefaultConfig ⟨⟨24, "23456789", false, true, false, false, true, true⟩⟩ rfl).1,
   (New_characterSet_nonempty (some ⟨0, "", false, true, false, false, true, true⟩)
      DefaultConfig ⟨⟨24, "23456789", false, true, false, false, true, true⟩⟩ rfl).2.1⟩

/-! ## Generation with a reader that never fails -/

/-- Appending a one-rune string and then a string of runes. -/
theorem append_singleton_append (generated : String) (r : Char) (picks : List Char) :
    generated ++ String.singleton r ++ ⟨picks⟩ = generated ++ ⟨r :: picks⟩ := by
  apply String.ext
  simp [String.data_append, String.singleton]

/-- Rune `val` of the exploded string. -/
theorem stringsSplitRunes_getElem? (cs : String) (val : Nat) (h : val < cs.length) :
    (stringsSplitRunes cs)[val]? = some (String.singleton (cs.data.get ⟨val, h⟩)) := by
  have h1 : val < cs.data.length := h
  unfold stringsSplitRunes
  rw [List.getElem?_map, List.getElem?_eq_getElem h1]
  rfl

/-- The exploded string has one element per rune. -/
theorem stringsSplitRunes_length (cs : String) : (stringsSplitRunes cs).length = cs.length := by
  unfold stringsSplitRunes
  rw [List.length_map]
  rfl

/-- With a reader that never fails and a non-empty character set, the loop of
`Generate` runs to its end: it returns what was generated before followed by one
rune of the character set per iteration, and makes one call of `rand.Int` per
iteration. -/
theorem generateLoop_of_neverFails (cs : String) (draw : RandReader) (hne : cs ≠ "")
    (hd : NeverFails draw) :
    ∀ (n : Nat) (generated : String) (pos : Nat),
      ∃ picks : List Char, picks.length = n ∧ (∀ r ∈ picks, r ∈ cs.data) ∧
        generateLoop (stringsSplitRunes cs) (stringsSplitRunes cs).length draw n generated pos
          = (Outcome.returned (some (generated ++ ⟨picks⟩)) none, pos + n) := by
  intro n
  induction n with
  | zero =>
    intro generated pos
    refine ⟨[], rfl, by simp, ?_⟩
    have : generated ++ (⟨[]⟩ : String) = generated := by
      apply String.ext; simp [String.data_append]
    simp [generateLoop, this]
  | succ n ih =>
    intro generated pos
    have hpos : 0 < (stringsSplitRunes cs).length := by
      rw [stringsSplitRunes_length]; exact length_pos_of_ne_empty cs hne
    obtain ⟨val, hval, hlt⟩ := hd _ pos hpos
    have hr : randInt draw (stringsSplitRunes cs).length pos
        = Outcome.returned (some val) none := by
      simp [randInt, hval, Nat.ne_of_gt hpos]
    rw [stringsSplitRunes_length] at hlt
    have hidx := stringsSplitRunes_getElem? cs val hlt
    obtain ⟨picks, hl, hmem, heq⟩ :=
      ih (generated ++ String.singleton (cs.data.get ⟨val, hlt⟩)) (pos + 1)
    refine ⟨cs.data.get ⟨val, hlt⟩ :: picks, by simp [hl], ?_, ?_⟩
    · intro r hr
      rcases List.mem_cons.1 hr with h | h
      · rw [h]; exact List.get_mem _ _ _
      · exact hmem r h
    · simp only [generateLoop, hr, hidx]
      rw [heq, append_singleton_append]
      congr 1
      omega

/-- With a reader that never fails, `GenerateWithLength` on a generator with a
non-empty character set returns `length.toNat` runes of that set and no error. -/
theorem GenerateWithLength_of_neverFails (g : Generator) (length : Int) (draw : RandReader)
    (pos : Nat) (hne : g.config.CharacterSet ≠ "") (hd : NeverFails draw) :
    ∃ picks : List Char, picks.length = length.toNat ∧
      (∀ r ∈ picks, r ∈ g.config.CharacterSet.data) ∧
      GenerateWithLength g length draw pos
        = (Outcome.returned (some ⟨picks⟩) none, pos + length.toNat) := by
  obtain ⟨picks, hl, hmem, heq⟩ :=
    generateLoop_of_neverFails g.config.CharacterSet draw hne hd length.toNat "" pos
  refine ⟨picks, hl, hmem, ?_⟩
  have hempty : ("" : String) ++ ⟨picks⟩ = ⟨picks⟩ := by
    apply String.ext; simp [String.data_append]
  rw [hempty] at heq
  exact heq

/-- Function `Generate` is `GenerateWithLength` at the configured length. -/
theorem Generate_eq_GenerateWithLength (g : Generator) (draw : RandReader) (pos : Nat) :
    Generate g draw pos = GenerateWithLength g g.config.Length draw pos := rfl

/-- When every call made in the body returns a password satisfying `P`, the loop
of `GenerateMany` returns what was collected before followed by one such
password per iteration. -/
theorem generateManyLoop_of_returns (one : Nat → Outcome (Option String) × Nat)
    (P : String → Prop)
    (h : ∀ pos, ∃ pw pos1, one pos = (Outcome.returned (some pw) none, pos1) ∧ P pw) :
    ∀ (n : Nat) (generated : List String) (pos : Nat),
      ∃ (news : List String) (pos1 : Nat), news.length = n ∧ (∀ pw ∈ news, P pw) ∧
        generateManyLoop one n generated pos
          = (Outcome.returned (generated ++ news) none, pos1) := by
  intro n
  induction n with
  | zero =>
    intro generated pos
    exact ⟨[], pos, rfl, by simp, by simp [generateManyLoop]⟩
  | succ n ih =>
    intro generated pos
    obtain ⟨pw, pos1, hone, hP⟩ := h pos
    obtain ⟨news, pos2, hl, hall, heq⟩ := ih (generated ++ [pw]) pos1
    refine ⟨pw :: news, pos2, by simp [hl], ?_, ?_⟩
    · intro q hq
      rcases List.mem_cons.1 hq with hq1 | hq1
      · rw [hq1]; exact hP
      · exact hall q hq1
    · simp only [generateManyLoop, hone]
      rw [heq]
      simp

/-! ## Claims on generation -/

/-- C2: for a `Config` that `New` accepts with `Length >= 1` and a run in which
the random source does not fail, `Generate` returns a password and no error, and
the password has exactly `Length` characters (runes, the elements that
`strings.Split(_, "")` yields). -/
theorem Generate_length (c d : Config) (g : Generator) (draw : RandReader) (pos : Nat)
    (hnew : (New (some c) d).generator = some g) (hlen : 1 ≤ c.Length)
    (hd : NeverFails draw) :
    ∃ pw, (Generate g draw pos).1 = Outcome.returned (some pw) none ∧
      (pw.length : Int) = c.Length ∧ ((stringsSplitRunes pw).length : Int) = c.Length := by
  have hne := New_characterSet_ne_empty c d g hnew
  obtain ⟨-, -, hgl, -⟩ := New_generator_eq_some c d g hnew
  have hc0 : c.Length ≠ 0 := by omega
  rw [if_neg hc0] at hgl
  obtain ⟨picks, hl, -, heq⟩ :=
    GenerateWithLength_of_neverFails g g.config.Length draw pos hne hd
  rw [← Generate_eq_GenerateWithLength] at heq
  have hpl : ((⟨picks⟩ : String).length : Int) = c.Length := by
    show ((picks.length : Nat) : Int) = c.Length
    rw [hl, hgl]
    omega
  refine ⟨⟨picks⟩, by rw [heq], hpl, ?_⟩
  rw [stringsSplitRunes_length]
  exact hpl

/-- Witness for C2: eight lowercase letters drawn by a reader that counts its
calls modulo the bound. -/
theorem Generate_length_witness :
    ∃ pw, (Generate ⟨⟨8, "abcdefghijklmnopqrstuvwxyz", false, false, true, false, false, false⟩⟩
        (fun max k => Except.ok (k % max)) 0).1 = Outcome.returned (some pw) none ∧
      (pw.length : Int) = 8 ∧ ((stringsSplitRunes pw).length : Int) = 8 :=
  Generate_length ⟨8, "", false, false, true, false, false, false⟩ DefaultConfig
    ⟨⟨8, "abcdefghijklmnopqrstuvwxyz", false, false, true, false, false, false⟩⟩
    (fun max k => Except.ok (k % max)) 0 rfl (by decide)
    (fun max k h => ⟨k % max, rfl, Nat.mod_lt k h⟩)

/-- C3: for a `Config` that `New` accepts and successful random draws, `Generate`
and `GenerateWithLength` (for any length) return a password, every character of
which is a character of the generator's resolved `CharacterSet`. -/
theorem Generate_characters_mem (c d : Config) (g : Generator) (draw : RandReader)
    (pos : Nat) (length : Int)
    (hnew : (New (some c) d).generator = some g) (hd : NeverFails draw) :
    (∃ pw, (Generate g draw pos).1 = Outcome.returned (some pw) none ∧
      ∀ r ∈ pw.data, r ∈ g.config.CharacterSet.data) ∧
    (∃ pw, (GenerateWithLength g length draw pos).1 = Outcome.returned (some pw) none ∧
      ∀ r ∈ pw.data, r ∈ g.config.CharacterSet.data) := by
  have hne := New_characterSet_ne_empty c d g hnew
  constructor
  · obtain ⟨picks, -, hmem, heq⟩ :=
      GenerateWithLength_of_neverFails g g.config.Length draw pos hne hd
    rw [← Generate_eq_GenerateWithLength] at heq
    exact ⟨⟨picks⟩, by rw [heq], hmem⟩
  · obtain ⟨picks, -, hmem, heq⟩ :=
      GenerateWithLength_of_neverFails g length draw pos hne hd
    exact ⟨⟨picks⟩, by rw [heq], hmem⟩

/-- Witness for C3: the explicit set `xyz`, length 5 configured and length 3
asked for. -/
theorem Generate_characters_mem_witness :
    (∃ pw, (Generate ⟨⟨5, "xyz", false, false, false, false, false, false⟩⟩
        (fun max k => Except.ok (k % max)) 0).1 = Outcome.returned (some pw) none ∧
      ∀ r ∈ pw.data, r ∈ ("xyz" : String).data) ∧
    (∃ pw, (GenerateWithLength ⟨⟨5, "xyz", false, false, false, false, false, false⟩⟩ 3
        (fun max k => Except.ok (k % max)) 0).1 = Outcome.returned (some pw) none ∧
      ∀ r ∈ pw.data, r ∈ ("xyz" : String).data) :=
  Generate_characters_mem ⟨5, "xyz", false, false, false, false, false, false⟩ DefaultConfig
    ⟨⟨5, "xyz", false, false, false, false, false, false⟩⟩
    (fun max k => Except.ok (k % max)) 0 3 rfl
    (fun max k h => ⟨k % max, rfl, Nat.mod_lt k h⟩)

/-- C4: for a generator produced by `New` from a `Config` with `Length >= 1`, every
`n >= 0` and a run in which the random source does not fail, `GenerateMany(n)`
returns no error and a list of exactly `n` passwords, each of exactly `Length`
characters, all of them characters of the resolved `CharacterSet`. -/
theorem GenerateMany_count (c d : Config) (g : Generator) (draw : RandReader) (pos : Nat)
    (n : Int) (hnew : (New (some c) d).generator = some g) (hlen : 1 ≤ c.Length)
    (hn : 0 ≤ n) (hd : NeverFails draw) :
    ∃ pws, (GenerateMany g n draw pos).1 = Outcome.returned pws none ∧
      (pws.length : Int) = n ∧
      ∀ pw ∈ pws, (pw.length : Int) = c.Length ∧
        ∀ r ∈ pw.data, r ∈ g.config.CharacterSet.data := by
  have hne := New_characterSet_ne_empty c d g hnew
  obtain ⟨-, -, hgl, -⟩ := New_generator_eq_some c d g hnew
  have hc0 : c.Length ≠ 0 := by omega
  rw [if_neg hc0] at hgl
  have hone : ∀ p, ∃ pw pos1,
      (fun p => Generate g draw p) p = (Outcome.returned (some pw) none, pos1) ∧
        ((pw.length : Int) = c.Length ∧ ∀ r ∈ pw.data, r ∈ g.config.CharacterSet.data) := by
    intro p
    obtain ⟨picks, hl, hmem, heq⟩ :=
      GenerateWithLength_of_neverFails g g.config.Length draw p hne hd
    rw [← Generate_eq_GenerateWithLength] at heq
    refine ⟨⟨picks⟩, _, heq, ?_, hmem⟩
    show ((picks.length : Nat) : Int) = c.Length
    rw [hl, hgl]
    omega
  obtain ⟨news, pos1, hl, hall, heq⟩ :=
    generateManyLoop_of_returns (fun p => Generate g draw p) _ hone n.toNat [] pos
  refine ⟨news, ?_, ?_, hall⟩
  · unfold GenerateMany
    rw [heq]
    simp
  · rw [hl]
    omega

/-- Witness for C4: three passwords of four digits. -/
theorem GenerateMany_count_witness :
    ∃ pws, (GenerateMany ⟨⟨4, "0123456789", false, true, false, false, false, false⟩⟩ 3
        (fun max k => Except.ok (k % max)) 0).1 = Outcome.returned pws none ∧
      (pws.length : Int) = 3 ∧
      ∀ pw ∈ pws, (pw.length : Int) = 4 ∧
        ∀ r ∈ pw.data, r ∈ ("0123456789" : String).data :=
  GenerateMany_count ⟨4, "", false, true, false, false, false, false⟩ DefaultConfig
    ⟨⟨4, "0123456789", false, true, false, false, false, false⟩⟩
    (fun max k => Except.ok (k % max)) 0 3 rfl (by decide) (by decide)
    (fun max k h => ⟨k % max, rfl, Nat.mod_lt k h⟩)

/-! ## Claims on the length-overriding variants, the default and determinism -/

/-- C13: `GenerateWithLength(g.Length)` returns the same result as `Generate`, and
`GenerateManyWithLength(n, g.Length)` the same as `GenerateMany(n)`, for every
sequence of draws (the number of draws made included); `GenerateWithLength(k)` on
`g` is `Generate` on the generator that differs from `g` in `Length = k` only. -/
theorem GenerateWithLength_eq_Generate (g : Generator) (draw : RandReader) (pos : Nat)
    (n k : Int) :
    GenerateWithLength g g.config.Length draw pos = Generate g draw pos ∧
    GenerateManyWithLength g n g.config.Length draw pos = GenerateMany g n draw pos ∧
    GenerateWithLength g k draw pos
      = Generate { config := { g.config with Length := k } } draw pos ∧
    GenerateManyWithLength g n k draw pos
      = GenerateMany { config := { g.config with Length := k } } n draw pos :=
  ⟨rfl, rfl, rfl, rfl⟩

/-- C16: from the initial `DefaultConfig`, `NewWithDefault()` and `New(nil)` both
return no error and a generator with `Length` 24 and the character set made of
lowercase letters, uppercase letters, numbers and symbols without the similar
and ambiguous characters. -/
theorem NewWithDefault_initial :
    NewWithDefault DefaultConfig =
      { generator := some ⟨⟨24,
          "abcdefghkmnpqrstuvwxyzABCDEFGHKMNPQRSTUVWXYZ23456789!$%^&*_+@#?.-=?",
          true, true, true, true, true, true⟩⟩,
        err := none,
        config := ⟨24,
          "abcdefghkmnpqrstuvwxyzABCDEFGHKMNPQRSTUVWXYZ23456789!$%^&*_+@#?.-=?",
          true, true, true, true, true, true⟩ } ∧
    New none DefaultConfig = NewWithDefault DefaultConfig := by
  constructor
  · decide
  · rfl

/-- Counterexample for C14: `New` on a configuration with `Length` 0, no explicit
character set and lowercase letters included overwrites `Length` with 24 and
`CharacterSet` with the 26 lowercase letters in the caller's object. -/
theorem New_overwrites_config :
    (New (some ⟨0, "", false, false, true, false, false, false⟩) DefaultConfig).config.Length
        = 24 ∧
      (New (some ⟨0, "", false, false, true, false, false, false⟩) DefaultConfig).config.CharacterSet
        = "abcdefghijklmnopqrstuvwxyz" ∧
      (New (some ⟨0, "", false, false, true, false, false, false⟩) DefaultConfig).config
        ≠ ⟨0, "", false, false, true, false, false, false⟩ := by
  decide

/-- C14, amended: for every `Config` passed to `New`, the six toggles have the
same value after `New` returns as before, and so have `Length` and `CharacterSet`
when `New` fails; when `New` succeeds it overwrites a zero `Length` with
`LengthStrong` and an empty `CharacterSet` with the built character set, and
leaves a non-zero `Length` and a non-empty `CharacterSet` as they were.  The
generator returned holds the object as `New` left it. -/
theorem New_config_frame (c d : Config) :
    (New (some c) d).config.IncludeSymbols = c.IncludeSymbols ∧
    (New (some c) d).config.IncludeNumbers = c.IncludeNumbers ∧
    (New (some c) d).config.IncludeLowercaseLetters = c.IncludeLowercaseLetters ∧
    (New (some c) d).config.IncludeUppercaseLetters = c.IncludeUppercaseLetters ∧
    (New (some c) d).config.ExcludeSimilarCharacters = c.ExcludeSimilarCharacters ∧
    (New (some c) d).config.ExcludeAmbiguousCharacters = c.ExcludeAmbiguousCharacters ∧
    (New (some c) d).config.Length =
      (if (New (some c) d).err = none ∧ c.Length = 0 then LengthStrong else c.Length) ∧
    (New (some c) d).config.CharacterSet =
      (if (New (some c) d).err = none ∧ c.CharacterSet = "" then buildCharacterSet c
        else c.CharacterSet) ∧
    (New (some c) d).generator =
      (if (New (some c) d).err = none then some ⟨(New (some c) d).config⟩ else none) := by
  by_cases he : c.IsEmpty
  · rw [New_of_isEmpty c d he]
    simp
  · have hg := New_guard_eq c
    rw [decide_eq_false he] at hg
    have hnew : New (some c) d =
        { generator := some ⟨⟨if c.Length = 0 then LengthStrong else c.Length,
            if c.CharacterSet = "" then buildCharacterSet c else c.CharacterSet,
            c.IncludeSymbols, c.IncludeNumbers, c.IncludeLowercaseLetters,
            c.IncludeUppercaseLetters, c.ExcludeSimilarCharacters,
            c.ExcludeAmbiguousCharacters⟩⟩,
          err := none,
          config := ⟨if c.Length = 0 then LengthStrong else c.Length,
            if c.CharacterSet = "" then buildCharacterSet c else c.CharacterSet,
            c.IncludeSymbols, c.IncludeNumbers, c.IncludeLowercaseLetters,
            c.IncludeUppercaseLetters, c.ExcludeSimilarCharacters,
            c.ExcludeAmbiguousCharacters⟩ } := by
      simp only [New, hg]
      by_cases hlen : c.Length = 0 <;> by_cases hcs : c.CharacterSet = "" <;>
        simp [hlen, hcs]
      all_goals exact buildCharacterSet_congr _ _ rfl rfl rfl rfl rfl rfl
    rw [hnew]
    simp

/-- C17: two configurations with empty `CharacterSet` that agree on the four
include toggles and the two exclude toggles are resolved by `New` to the same
character set (or are both refused), whatever their `Length` values; `New` takes
no random draw. -/
theorem New_characterSet_deterministic (c1 c2 d1 d2 : Config)
    (h1 : c1.CharacterSet = "") (h2 : c2.CharacterSet = "")
    (hs : c1.IncludeSymbols = c2.IncludeSymbols)
    (hn : c1.IncludeNumbers = c2.IncludeNumbers)
    (hl : c1.IncludeLowercaseLetters = c2.IncludeLowercaseLetters)
    (hu : c1.IncludeUppercaseLetters = c2.IncludeUppercaseLetters)
    (hes : c1.ExcludeSimilarCharacters = c2.ExcludeSimilarCharacters)
    (hea : c1.ExcludeAmbiguousCharacters = c2.ExcludeAmbiguousCharacters) :
    (New (some c1) d1).generator.map (fun g => g.config.CharacterSet) =
        (New (some c2) d2).generator.map (fun g => g.config.CharacterSet) ∧
      (New (some c1) d1).err = (New (some c2) d2).err := by
  have hiff : c1.IsEmpty ↔ c2.IsEmpty := by
    unfold Config.IsEmpty
    rw [hs, hn, hl, hu, h1, h2]
  by_cases he : c1.IsEmpty
  · rw [New_of_isEmpty c1 d1 he, New_of_isEmpty c2 d2 (hiff.1 he)]
    exact ⟨rfl, rfl⟩
  · have he2 : ¬ c2.IsEmpty := fun h => he (hiff.2 h)
    obtain ⟨g1, hg1, -, hcs1⟩ := New_of_not_isEmpty c1 d1 he
    obtain ⟨g2, hg2, -, hcs2⟩ := New_of_not_isEmpty c2 d2 he2
    rw [hg1, hg2]
    refine ⟨?_, rfl⟩
    simp only [Option.map_some']
    rw [hcs1, hcs2, if_pos h1, if_pos h2]
    exact congrArg some (buildCharacterSet_congr c1 c2 hs hn hl hu hes hea)

/-- Witness for C17: lengths 8 and 40, everything included, nothing excluded. -/
theorem New_characterSet_deterministic_witness :
    (New (some ⟨8, "", true, true, true, true, false, false⟩) DefaultConfig).generator.map
        (fun g => g.config.CharacterSet) =
      (New (some ⟨40, "", true, true, true, true, false, false⟩)
        ⟨8, "", true, true, true, true, false, false⟩).generator.map
        (fun g => g.config.CharacterSet) ∧
    (New (some ⟨8, "", true, true, true, true, false, false⟩) DefaultConfig).err =
      (New (some ⟨40, "", true, true, true, true, false, false⟩)
        ⟨8, "", true, true, true, true, false, false⟩).err :=
  New_characterSet_deterministic ⟨8, "", true, true, true, true, false, false⟩
    ⟨40, "", true, true, true, true, false, false⟩ DefaultConfig
    ⟨8, "", true, true, true, true, false, false⟩ rfl rfl rfl rfl rfl rfl rfl rfl

/-- Evaluation for C15: with symbols included the resolved character set holds
`?` twice, because `DefaultSymbolSet` does; without symbols no rune is repeated. -/
theorem New_symbols_repeat_questionMark :
    (New (some ⟨8, "", true, false, false, false, false, false⟩) DefaultConfig).generator
        = some ⟨⟨8, DefaultSymbolSet, true, false, false, false, false, false⟩⟩ ∧
      DefaultSymbolSet.data.count '?' = 2 ∧
      ¬ DefaultSymbolSet.data.Nodup ∧
      (∀ n l u es ea : Bool,
        (buildCharacterSet ⟨0, "", true, n, l, u, es, ea⟩).data.count '?' = 2) ∧
      (∀ n l u es ea : Bool,
        (buildCharacterSet ⟨0, "", false, n, l, u, es, ea⟩).data.Nodup) := by
  refine ⟨by decide, by decide, by decide, by decide, by decide⟩

/-! ## The generation loop, draw by draw -/

/-- One iteration of the loop of `Generate` whose draw yields a value in range:
the rune at that position is appended and the loop goes on. -/
theorem generateLoop_succ_of_ok (cs : String) (draw : RandReader) (n : Nat)
    (generated : String) (pos val : Nat) (hval : draw cs.length pos = Except.ok val)
    (hlt : val < cs.length) :
    generateLoop (stringsSplitRunes cs) (stringsSplitRunes cs).length draw (n + 1) generated pos
      = generateLoop (stringsSplitRunes cs) (stringsSplitRunes cs).length draw n
          (generated ++ String.singleton (cs.data.get ⟨val, hlt⟩)) (pos + 1) := by
  have hpos : cs.length ≠ 0 := by omega
  have hr : randInt draw (stringsSplitRunes cs).length pos
      = Outcome.returned (some val) none := by
    rw [stringsSplitRunes_length]
    simp [randInt, hval, hpos]
  have hidx := stringsSplitRunes_getElem? cs val hlt
  simp only [generateLoop, hr, hidx]

/-- One iteration of the loop of `Generate` whose draw fails: the loop returns
nil and that error, having made this one call more. -/
theorem generateLoop_succ_of_error (cs : String) (draw : RandReader) (n : Nat)
    (generated : String) (pos : Nat) (e : Error) (hne : cs ≠ "")
    (herr : draw cs.length pos = Except.error e) :
    generateLoop (stringsSplitRunes cs) (stringsSplitRunes cs).length draw (n + 1) generated pos
      = (Outcome.returned none (some e), pos + 1) := by
  have hpos : cs.length ≠ 0 := Nat.ne_of_gt (length_pos_of_ne_empty cs hne)
  have hr : randInt draw (stringsSplitRunes cs).length pos
      = Outcome.returned none (some e) := by
    rw [stringsSplitRunes_length]
    simp [randInt, herr, hpos]
  simp only [generateLoop, hr]

/-- When the first `n` draws from `pos` on yield values in range, the loop runs
`n` iterations and returns the runes at the drawn positions, in the order of the
draws. -/
theorem generateLoop_of_draws (cs : String) (draw : RandReader) :
    ∀ (n : Nat) (generated : String) (pos : Nat),
      (∀ i, i < n → ∃ val, draw cs.length (pos + i) = Except.ok val ∧ val < cs.length) →
      ∃ picks : List Char, picks.length = n ∧
        (∀ i, i < n → ∃ val, draw cs.length (pos + i) = Except.ok val ∧
          picks[i]? = cs.data[val]?) ∧
        generateLoop (stringsSplitRunes cs) (stringsSplitRunes cs).length draw n generated pos
          = (Outcome.returned (some (generated ++ ⟨picks⟩)) none, pos + n) := by
  intro n
  induction n with
  | zero =>
    intro generated pos _
    refine ⟨[], rfl, fun i hi => absurd hi (Nat.not_lt_zero i), ?_⟩
    have : generated ++ (⟨[]⟩ : String) = generated := by
      apply String.ext; simp [String.data_append]
    simp [generateLoop, this]
  | succ n ih =>
    intro generated pos h
    obtain ⟨val, hval, hlt⟩ := h 0 (Nat.succ_pos n)
    rw [Nat.add_zero] at hval
    have hrest : ∀ i, i < n →
        ∃ v, draw cs.length (pos + 1 + i) = Except.ok v ∧ v < cs.length := by
      intro i hi
      obtain ⟨v, hv, hvlt⟩ := h (i + 1) (Nat.succ_lt_succ hi)
      exact ⟨v, by rw [Nat.add_assoc, Nat.add_comm 1 i]; exact hv, hvlt⟩
    obtain ⟨picks, hl, hpicks, heq⟩ :=
      ih (generated ++ String.singleton (cs.data.get ⟨val, hlt⟩)) (pos + 1) hrest
    refine ⟨cs.data.get ⟨val, hlt⟩ :: picks, by simp [hl], ?_, ?_⟩
    · intro i hi
      cases i with
      | zero =>
        refine ⟨val, by rw [Nat.add_zero]; exact hval, ?_⟩
        have hlt1 : val < cs.data.length := hlt
        rw [List.getElem?_cons_zero, List.getElem?_eq_getElem hlt1]
        rfl
      | succ i =>
        obtain ⟨v, hv, hp⟩ := hpicks i (Nat.lt_of_succ_lt_succ hi)
        refine ⟨v, ?_, ?_⟩
        · rw [← hv]; congr 1; omega
        · rw [List.getElem?_cons_succ]; exact hp
    · rw [generateLoop_succ_of_ok cs draw n generated pos val hval hlt, heq,
        append_singleton_append]
      congr 1
      omega

/-- When draw number `j` from `pos` on is the first to fail, the loop returns nil
and the error of that draw, and has made `j + 1` calls of `rand.Int`. -/
theorem generateLoop_first_error (cs : String) (draw : RandReader) (hne : cs ≠ "") :
    ∀ (j n : Nat) (generated : String) (pos : Nat) (e : Error), j < n →
      draw cs.length (pos + j) = Except.error e →
      (∀ i, i < j → ∃ val, draw cs.length (pos + i) = Except.ok val ∧ val < cs.length) →
      generateLoop (stringsSplitRunes cs) (stringsSplitRunes cs).length draw n generated pos
        = (Outcome.returned none (some e), pos + j + 1) := by
  intro j
  induction j with
  | zero =>
    intro n generated pos e hjn herr _
    obtain ⟨m, rfl⟩ : ∃ m, n = m + 1 := ⟨n - 1, by omega⟩
    rw [Nat.add_zero] at herr
    exact generateLoop_succ_of_error cs draw m generated pos e hne herr
  | succ j ih =>
    intro n generated pos e hjn herr hok
    obtain ⟨m, rfl⟩ : ∃ m, n = m + 1 := ⟨n - 1, by omega⟩
    obtain ⟨val, hval, hlt⟩ := hok 0 (Nat.succ_pos j)
    rw [Nat.add_zero] at hval
    rw [generateLoop_succ_of_ok cs draw m generated pos val hval hlt]
    have herr1 : draw cs.length (pos + 1 + j) = Except.error e := by
      rw [← herr]; congr 1; omega
    have hok1 : ∀ i, i < j →
        ∃ v, draw cs.length (pos + 1 + i) = Except.ok v ∧ v < cs.length := by
      intro i hi
      obtain ⟨v, hv, hvlt⟩ := hok (i + 1) (Nat.succ_lt_succ hi)
      exact ⟨v, by rw [← hv]; congr 1; omega, hvlt⟩
    rw [ih m _ (pos + 1) e (by omega) herr1 hok1]
    congr 1
    omega

/-- With a non-empty character set and draws in range the loop never panics. -/
theorem generateLoop_ne_panicked (cs : String) (draw : RandReader) (hne : cs ≠ "")
    (hin : DrawsInRange draw cs.length) :
    ∀ (n : Nat) (generated : String) (pos : Nat),
      (generateLoop (stringsSplitRunes cs) (stringsSplitRunes cs).length draw n
        generated pos).1 ≠ Outcome.panicked := by
  intro n
  induction n with
  | zero =>
    intro generated pos
    simp [generateLoop]
  | succ n ih =>
    intro generated pos
    cases hd : draw cs.length pos with
    | error e =>
      rw [generateLoop_succ_of_error cs draw n generated pos e hne hd]
      simp
    | ok val =>
      have hlt : val < cs.length := hin pos val hd
      rw [generateLoop_succ_of_ok cs draw n generated pos val hd hlt]
      exact ih _ _

/-- The loop consults the reader at the bound it is given only. -/
theorem generateLoop_congr (characterSet : List String) (max : Nat) (draw draw1 : RandReader)
    (h : ∀ k, draw1 max k = draw max k) :
    ∀ (n : Nat) (generated : String) (pos : Nat),
      generateLoop characterSet max draw1 n generated pos
        = generateLoop characterSet max draw n generated pos := by
  intro n
  induction n with
  | zero => intro generated pos; rfl
  | succ n ih =>
    intro generated pos
    have hr : randInt draw1 max pos = randInt draw max pos := by
      simp only [randInt, h]
    simp only [generateLoop, hr]
    cases randInt draw max pos with
    | panicked => rfl
    | returned v err =>
      cases v with
      | none => cases err <;> rfl
      | some val =>
        cases err with
        | some e => rfl
        | none =>
          simp only
          cases characterSet[val]? with
          | none => rfl
          | some ch => exact ih _ _

/-- The generator `New` returns, for a `Config` or for nil, holds a non-empty
character set. -/
theorem New_opt_characterSet_ne_empty (cfg : Option Config) (d : Config) (g : Generator)
    (h : (New cfg d).generator = some g) : g.config.CharacterSet ≠ "" := by
  cases cfg with
  | none => exact New_characterSet_ne_empty d d g (by rw [← New_nil]; exact h)
  | some c => exact New_characterSet_ne_empty c d g h

/-- The loop of `GenerateMany` when the call in its body returns an error: nil
and that error, whatever was collected before. -/
theorem generateManyLoop_succ_of_error (one : Nat → Outcome (Option String) × Nat)
    (m : Nat) (generated : List String) (pos pos2 : Nat) (v : Option String) (e : Error)
    (h : one pos = (Outcome.returned v (some e), pos2)) :
    generateManyLoop one (m + 1) generated pos = (Outcome.returned [] (some e), pos2) := by
  cases v <;> simp only [generateManyLoop, h]

/-- When `k` iterations of the loop of `GenerateMany` end without error, a longer
run of the loop goes through them and continues from where they ended. -/
theorem generateManyLoop_add (one : Nat → Outcome (Option String) × Nat) :
    ∀ (k : Nat) (generated : List String) (pos : Nat) (pws : List String) (pos1 : Nat),
      generateManyLoop one k generated pos = (Outcome.returned pws none, pos1) →
      ∀ m, generateManyLoop one (k + m) generated pos = generateManyLoop one m pws pos1 := by
  intro k
  induction k with
  | zero =>
    intro generated pos pws pos1 h m
    simp only [generateManyLoop, Prod.mk.injEq, Outcome.returned.injEq, and_true] at h
    rw [Nat.zero_add, h.1, h.2]
  | succ k ih =>
    intro generated pos pws pos1 h m
    rw [Nat.succ_add_eq_add_succ, Nat.add_succ]
    rcases hone : one pos with ⟨o, p1⟩
    cases o with
    | panicked => simp [generateManyLoop, hone] at h
    | returned v err =>
      cases v with
      | none => cases err <;> simp [generateManyLoop, hone] at h
      | some str =>
        cases err with
        | some e => simp [generateManyLoop, hone] at h
        | none =>
          simp only [generateManyLoop, hone] at h ⊢
          exact ih _ _ _ _ h m

/-! ## Claims on errors, panics and the use of the draws -/

/-- C11: with the random source a sequence of draws that each yield an index or
fail, `Generate` returns an error and no password if and only if one of the
first `Length` draws fails; the error is that of the first failing draw and no
draw is requested after it (`j + 1` calls of `rand.Int` have been made); when
none of the first `Length` draws fails a password is returned after `Length`
draws. -/
theorem Generate_error_iff (g : Generator) (draw : RandReader) (pos : Nat)
    (hne : g.config.CharacterSet ≠ "")
    (hin : DrawsInRange draw g.config.CharacterSet.length) :
    ((∃ e, (Generate g draw pos).1 = Outcome.returned none (some e)) ↔
      ∃ j, j < g.config.Length.toNat ∧
        ∃ e, draw g.config.CharacterSet.length (pos + j) = Except.error e) ∧
    (∀ j e, j < g.config.Length.toNat →
      draw g.config.CharacterSet.length (pos + j) = Except.error e →
      (∀ i, i < j → ∃ val, draw g.config.CharacterSet.length (pos + i) = Except.ok val) →
      Generate g draw pos = (Outcome.returned none (some e), pos + j + 1)) ∧
    ((∀ i, i < g.config.Length.toNat →
        ∃ val, draw g.config.CharacterSet.length (pos + i) = Except.ok val) →
      ∃ pw, Generate g draw pos
        = (Outcome.returned (some pw) none, pos + g.config.Length.toNat)) := by
  have hfirst : ∀ j e, j < g.config.Length.toNat →
      draw g.config.CharacterSet.length (pos + j) = Except.error e →
      (∀ i, i < j → ∃ val, draw g.config.CharacterSet.length (pos + i) = Except.ok val) →
      Generate g draw pos = (Outcome.returned none (some e), pos + j + 1) := by
    intro j e hj herr hok
    exact generateLoop_first_error g.config.CharacterSet draw hne j _ "" pos e hj herr
      (fun i hi => (hok i hi).elim fun val hval => ⟨val, hval, hin _ _ hval⟩)
  have hall : (∀ i, i < g.config.Length.toNat →
        ∃ val, draw g.config.CharacterSet.length (pos + i) = Except.ok val) →
      ∃ pw, Generate g draw pos
        = (Outcome.returned (some pw) none, pos + g.config.Length.toNat) := by
    intro h
    obtain ⟨picks, -, -, heq⟩ :=
      generateLoop_of_draws g.config.CharacterSet draw g.config.Length.toNat "" pos
        (fun i hi => (h i hi).elim fun val hval => ⟨val, hval, hin _ _ hval⟩)
    exact ⟨_, heq⟩
  refine ⟨⟨?_, ?_⟩, hfirst, hall⟩
  · rintro ⟨e, he⟩
    by_contra hno
    push_neg at hno
    have hok : ∀ i, i < g.config.Length.toNat →
        ∃ val, draw g.config.CharacterSet.length (pos + i) = Except.ok val := by
      intro i hi
      cases hd : draw g.config.CharacterSet.length (pos + i) with
      | ok val => exact ⟨val, rfl⟩
      | error e1 => exact absurd hd (hno i hi e1)
    obtain ⟨pw, hpw⟩ := hall hok
    rw [hpw] at he
    simp at he
  · intro hex
    classical
    have hj0 := Nat.find_spec hex
    have hmin : ∀ i, i < Nat.find hex →
        ∃ val, draw g.config.CharacterSet.length (pos + i) = Except.ok val := by
      intro i hi
      have hnot := Nat.find_min hex hi
      cases hd : draw g.config.CharacterSet.length (pos + i) with
      | ok val => exact ⟨val, rfl⟩
      | error e1 => exact absurd ⟨Nat.lt_trans hi hj0.1, e1, hd⟩ hnot
    obtain ⟨hlt, e0, he0⟩ := hj0
    exact ⟨e0, by rw [hfirst _ e0 hlt he0 hmin]⟩

/-- C19: for a generator returned by `New`, the bound passed to the random source
is strictly positive and, when the draws return values in `[0, bound)`, neither
`Generate` nor `GenerateWithLength` panics (a non-positive bound or an index out
of range would). -/
theorem Generate_ne_panicked (cfg : Option Config) (d : Config) (g : Generator)
    (draw : RandReader) (pos : Nat) (length : Int)
    (hnew : (New cfg d).generator = some g)
    (hin : DrawsInRange draw (stringsSplitRunes g.config.CharacterSet).length) :
    0 < (stringsSplitRunes g.config.CharacterSet).length ∧
      (Generate g draw pos).1 ≠ Outcome.panicked ∧
      (GenerateWithLength g length draw pos).1 ≠ Outcome.panicked := by
  have hne := New_opt_characterSet_ne_empty cfg d g hnew
  rw [stringsSplitRunes_length] at hin ⊢
  exact ⟨length_pos_of_ne_empty _ hne,
    generateLoop_ne_panicked _ draw hne hin _ _ _,
    generateLoop_ne_panicked _ draw hne hin _ _ _⟩

/-- C18: with `n` the number of characters of the generator's `CharacterSet`, when
the draws made with bound `n` yield the values `r 0, r 1, ...` below `n`,
`GenerateWithLength` returns the password whose `i`-th character is the character
at position `r i` of the `CharacterSet`, the value being used as the position
without any reduction; the result depends on the reader at bound `n` only; and
`Generate` is the same function at the configured length. -/
theorem GenerateWithLength_positions (g : Generator) (draw : RandReader) (pos : Nat)
    (length : Int) (r : Nat → Nat)
    (hr : ∀ i, i < length.toNat →
      draw g.config.CharacterSet.length (pos + i) = Except.ok (r i) ∧
        r i < g.config.CharacterSet.length) :
    (∃ pw, GenerateWithLength g length draw pos
          = (Outcome.returned (some pw) none, pos + length.toNat) ∧
        pw.length = length.toNat ∧
        ∀ i, i < length.toNat → pw.data[i]? = g.config.CharacterSet.data[r i]?) ∧
    (∀ draw1 : RandReader,
      (∀ k, draw1 g.config.CharacterSet.length k = draw g.config.CharacterSet.length k) →
      GenerateWithLength g length draw1 pos = GenerateWithLength g length draw pos) ∧
    Generate g draw pos = GenerateWithLength g g.config.Length draw pos := by
  refine ⟨?_, ?_, rfl⟩
  · obtain ⟨picks, hl, hpicks, heq⟩ :=
      generateLoop_of_draws g.config.CharacterSet draw length.toNat "" pos
        (fun i hi => ⟨r i, (hr i hi).1, (hr i hi).2⟩)
    have hempty : ("" : String) ++ ⟨picks⟩ = ⟨picks⟩ := by
      apply String.ext; simp [String.data_append]
    rw [hempty] at heq
    refine ⟨⟨picks⟩, heq, hl, ?_⟩
    intro i hi
    obtain ⟨val, hval, hp⟩ := hpicks i hi
    have hv : val = r i := by
      have := (hr i hi).1
      rw [hval] at this
      exact Except.ok.inj this
    rw [← hv]
    exact hp
  · intro draw1 h
    have h1 : ∀ k, draw1 (stringsSplitRunes g.config.CharacterSet).length k
        = draw (stringsSplitRunes g.config.CharacterSet).length k := by
      rw [stringsSplitRunes_length]; exact h
    exact generateLoop_congr _ _ draw draw1 h1 _ _ _

/-- The sample reader hands out values below the bound. -/
theorem sampleReader_inRange (fails max : Nat) (hmax : 0 < max) :
    DrawsInRange (sampleReader fails) max := by
  intro k val h
  unfold sampleReader at h
  split at h
  · have hv : k % max = val := Except.ok.inj h
    rw [← hv]
    exact Nat.mod_lt k hmax
  · cases h

/-- Witness for C11: four characters asked from `ab`, the third draw fails. -/
theorem Generate_error_iff_witness :
    Generate ⟨⟨4, "ab", false, false, false, false, false, false⟩⟩ (sampleReader 2) 0
      = (Outcome.returned none (some (Error.readerError 2)), 3) :=
  (Generate_error_iff ⟨⟨4, "ab", false, false, false, false, false, false⟩⟩ (sampleReader 2) 0
    (by decide) (sampleReader_inRange 2 2 (by decide))).2.1 2 (Error.readerError 2)
    (by decide) rfl
    (fun i hi => by
      have hi2 : i < 2 := hi
      interval_cases i
      · exact ⟨0, rfl⟩
      · exact ⟨1, rfl⟩)

/-- C12: when `GenerateMany(k)` goes through for some `0 <= k < n`, returning the
passwords `pws`, and the next call of `Generate` fails with error `e`, then
`GenerateMany(n)` returns `e` with a nil list: `pws` is not returned.  The same
holds for `GenerateManyWithLength` with respect to `GenerateWithLength`. -/
theorem GenerateMany_error (g : Generator) (draw : RandReader) (pos : Nat) (k n length : Int)
    (hk : 0 ≤ k) (hkn : k < n) :
    (∀ (pws : List String) (pos1 pos2 : Nat) (v : Option String) (e : Error),
      GenerateMany g k draw pos = (Outcome.returned pws none, pos1) →
      Generate g draw pos1 = (Outcome.returned v (some e), pos2) →
      GenerateMany g n draw pos = (Outcome.returned [] (some e), pos2)) ∧
    (∀ (pws : List String) (pos1 pos2 : Nat) (v : Option String) (e : Error),
      GenerateManyWithLength g k length draw pos = (Outcome.returned pws none, pos1) →
      GenerateWithLength g length draw pos1 = (Outcome.returned v (some e), pos2) →
      GenerateManyWithLength g n length draw pos = (Outcome.returned [] (some e), pos2)) := by
  obtain ⟨m, hm⟩ : ∃ m : Nat, n.toNat = k.toNat + (m + 1) :=
    ⟨n.toNat - k.toNat - 1, by omega⟩
  constructor
  · intro pws pos1 pos2 v e hprefix hfail
    unfold GenerateMany at hprefix ⊢
    rw [hm, generateManyLoop_add _ _ _ _ _ _ hprefix (m + 1)]
    exact generateManyLoop_succ_of_error _ m pws pos1 pos2 v e hfail
  · intro pws pos1 pos2 v e hprefix hfail
    unfold GenerateManyWithLength at hprefix ⊢
    rw [hm, generateManyLoop_add _ _ _ _ _ _ hprefix (m + 1)]
    exact generateManyLoop_succ_of_error _ m pws pos1 pos2 v e hfail

/-- Witness for C12: three passwords of two characters asked from `ab`; the
first is generated, the second fails at its second draw. -/
theorem GenerateMany_error_witness :
    GenerateMany ⟨⟨2, "ab", false, false, false, false, false, false⟩⟩ 3 (sampleReader 3) 0
      = (Outcome.returned [] (some (Error.readerError 3)), 4) :=
  (GenerateMany_error ⟨⟨2, "ab", false, false, false, false, false, false⟩⟩ (sampleReader 3) 0
    1 3 2 (by decide) (by decide)).1 ["ab"] 2 4 none (Error.readerError 3) rfl rfl

/-- Witness for C19: the generator `New` makes of the digits, a reader that fails
from its second call on. -/
theorem Generate_ne_panicked_witness :
    0 < (stringsSplitRunes "0123456789").length ∧
      (Generate ⟨⟨4, "0123456789", false, true, false, false, false, false⟩⟩
        (sampleReader 1) 0).1 ≠ Outcome.panicked ∧
      (GenerateWithLength ⟨⟨4, "0123456789", false, true, false, false, false, false⟩⟩ 7
        (sampleReader 1) 0).1 ≠ Outcome.panicked :=
  Generate_ne_panicked (some ⟨4, "", false, true, false, false, false, false⟩) DefaultConfig
    ⟨⟨4, "0123456789", false, true, false, false, false, false⟩⟩ (sampleReader 1) 0 7 rfl
    (sampleReader_inRange 1 10 (by decide))

/-- Witness for C18: the draws 2, 1, 0 on the set `xyz` give `zyx`. -/
theorem GenerateWithLength_positions_witness :
    ∃ pw, GenerateWithLength ⟨⟨8, "xyz", false, false, false, false, false, false⟩⟩ 3
          (fun _ k => Except.ok (2 - k)) 0
          = (Outcome.returned (some pw) none, 0 + (3 : Int).toNat) ∧
        pw.length = (3 : Int).toNat ∧
        ∀ i, i < (3 : Int).toNat → pw.data[i]? = ("xyz" : String).data[(fun j => 2 - j) i]? :=
  (GenerateWithLength_positions ⟨⟨8, "xyz", false, false, false, false, false, false⟩⟩
    (fun _ k => Except.ok (2 - k)) 0 3 (fun j => 2 - j)
    (fun i _ => ⟨by simp, by show 2 - i < 3; omega⟩)).1

/-- C20: a `Config` that `New` accepts with `Length = 0` gives a generator with
`Length = LengthStrong = 24`, whose `Generate` returns 24 characters when the
random source does not fail; with `Length != 0` the generator keeps the
`Length` of the `Config`, negative values included, for which `Generate` returns
the empty string without requesting a draw. -/
theorem New_length (c d : Config) (g : Generator)
    (hnew : (New (some c) d).generator = some g) :
    (c.Length = 0 →
      g.config.Length = LengthStrong ∧ LengthStrong = 24 ∧
      ∀ (draw : RandReader) (pos : Nat), NeverFails draw →
        ∃ pw, Generate g draw pos = (Outcome.returned (some pw) none, pos + 24) ∧
          pw.length = 24) ∧
    (c.Length ≠ 0 → g.config.Length = c.Length) ∧
    (c.Length < 0 →
      ∀ (draw : RandReader) (pos : Nat),
        Generate g draw pos = (Outcome.returned (some "") none, pos)) := by
  have hne := New_characterSet_ne_empty c d g hnew
  obtain ⟨-, -, hgl, -⟩ := New_generator_eq_some c d g hnew
  refine ⟨?_, ?_, ?_⟩
  · intro h0
    rw [if_pos h0] at hgl
    refine ⟨hgl, rfl, ?_⟩
    intro draw pos hd
    obtain ⟨picks, hl, -, heq⟩ :=
      GenerateWithLength_of_neverFails g g.config.Length draw pos hne hd
    rw [← Generate_eq_GenerateWithLength, hgl] at heq
    rw [hgl] at hl
    exact ⟨⟨picks⟩, heq, hl⟩
  · intro h0
    rw [if_neg h0] at hgl
    exact hgl
  · intro hneg draw pos
    rw [if_neg (by omega)] at hgl
    have hz : g.config.Length.toNat = 0 := by
      rw [hgl]; omega
    show generateLoop _ _ draw g.config.Length.toNat "" pos = _
    rw [hz]
    rfl

/-- Witness for C20: lengths 0 and -3 with lowercase letters. -/
theorem New_length_witness :
    (∃ pw, Generate
          ⟨⟨24, "abcdefghijklmnopqrstuvwxyz", false, false, true, false, false, false⟩⟩
          (fun max k => Except.ok (k % max)) 0 = (Outcome.returned (some pw) none, 0 + 24) ∧
        pw.length = 24) ∧
      Generate ⟨⟨-3, "abcdefghijklmnopqrstuvwxyz", false, false, true, false, false, false⟩⟩
        (sampleReader 0) 5 = (Outcome.returned (some "") none, 5) :=
  ⟨((New_length ⟨0, "", false, false, true, false, false, false⟩ DefaultConfig
      ⟨⟨24, "abcdefghijklmnopqrstuvwxyz", false, false, true, false, false, false⟩⟩ rfl).1
      rfl).2.2 (fun max k => Except.ok (k % max)) 0
      (fun max k h => ⟨k % max, rfl, Nat.mod_lt k h⟩),
   (New_length ⟨-3, "", false, false, true, false, false, false⟩ DefaultConfig
      ⟨⟨-3, "abcdefghijklmnopqrstuvwxyz", false, false, true, false, false, false⟩⟩ rfl).2.2
      (by decide) (sampleReader 0) 5⟩

end Passgen
